import Mathlib

/-!
Verification development for the rust-a2s repository: a shallow embedding of
its A2S query-protocol decoders (packet envelope, fragment headers, Source and
GoldSource INFO, PLAYER) together with theorems settling the specification
claims about them.

Byte buffers are modelled as `List Nat` (each element a byte value 0..255);
parsers are functions `List Nat → Option (List Nat × α)` returning the
remaining input and the value, mirroring nom's `IResult` with errors
collapsed to `none`.  Rust `String` fields produced by `from_utf8_lossy` are
modelled as the raw byte list before lossy decoding (the decoders never
inspect string contents, and lossy decoding is a fixed injective-enough map
for the equalities the claims need, since both compared decoders apply the
identical map).  The `f32` duration field of a player entry is modelled as
its raw 32-bit little-endian pattern; no claim inspects its numeric value.
-/

namespace A2S

/-- nom-style sequencing: run the next step on the remaining input, mirroring
`let (input, v) = p(input)?` in the Rust source. -/
def pbind (x : Option (List Nat × α)) (f : List Nat → α → Option β) : Option β :=
  match x with
  | none => none
  | some (i, a) => f i a

-- # Primitive field readers (src/parser_util.rs and nom number parsers)

/-- nom `le_u8`: one byte. -/
def le_u8 (input : List Nat) : Option (List Nat × Nat) :=
  match input with
  | [] => none
  | b :: rest => some (rest, b)

/-- Two's-complement value of a 16-bit little-endian pair. -/
def toI16 (b0 b1 : Nat) : Int :=
  let v := b0 + 256 * b1
  if v < 32768 then (v : Int) else (v : Int) - 65536

/-- nom `le_i16`: two bytes, little-endian, signed. -/
def le_i16 (input : List Nat) : Option (List Nat × Int) :=
  match input with
  | b0 :: b1 :: rest => some (rest, toI16 b0 b1)
  | _ => none

/-- Two's-complement value of a 32-bit little-endian quadruple. -/
def toI32 (b0 b1 b2 b3 : Nat) : Int :=
  let v := b0 + 256 * b1 + 65536 * b2 + 16777216 * b3
  if v < 2147483648 then (v : Int) else (v : Int) - 4294967296

/-- nom `le_i32`: four bytes, little-endian, signed. -/
def le_i32 (input : List Nat) : Option (List Nat × Int) :=
  match input with
  | b0 :: b1 :: b2 :: b3 :: rest => some (rest, toI32 b0 b1 b2 b3)
  | _ => none

/-- nom `le_u64`: eight bytes, little-endian, unsigned. -/
def le_u64 (input : List Nat) : Option (List Nat × Nat) :=
  match input with
  | b0 :: b1 :: b2 :: b3 :: b4 :: b5 :: b6 :: b7 :: rest =>
      some (rest, b0 + 256 * (b1 + 256 * (b2 + 256 * (b3 + 256 *
            (b4 + 256 * (b5 + 256 * (b6 + 256 * b7)))))))
  | _ => none

/-- nom `le_f32`: four bytes; the value is kept as its raw little-endian
bit pattern (no claim inspects the floating-point interpretation). -/
def le_f32 (input : List Nat) : Option (List Nat × Nat) :=
  match input with
  | b0 :: b1 :: b2 :: b3 :: rest =>
      some (rest, b0 + 256 * b1 + 65536 * b2 + 16777216 * b3)
  | _ => none

/-- `parser_util::c_string`: bytes until a 0x00 terminator (terminator
consumed, not included); no terminator before the end of input is an error. -/
def c_string (input : List Nat) : Option (List Nat × List Nat) :=
  match input with
  | [] => none
  | b :: rest =>
      if b = 0 then some (rest, [])
      else
        match c_string rest with
        | some (r, s) => some (r, b :: s)
        | none => none

/-- `parser_util::opt_le_u8`: optional byte; an empty input yields `none`
as the value, never an error. -/
def opt_le_u8 (input : List Nat) : Option (List Nat × Option Nat) :=
  match input with
  | [] => some ([], none)
  | b :: rest => some (rest, some b)

/-- `parser_util::parse_null`: exactly one 0x00 byte. -/
def parse_null (input : List Nat) : Option (List Nat × Unit) :=
  match input with
  | 0 :: rest => some (rest, ())
  | _ => none

/-- `parser_util::parse_bool`: one byte, 0 is false, anything else true. -/
def parse_bool (input : List Nat) : Option (List Nat × Bool) :=
  match input with
  | [] => none
  | b :: rest => some (rest, b != 0)

/-- nom `rest`: consume and return everything remaining. -/
def take_rest (input : List Nat) : Option (List Nat × List Nat) :=
  some ([], input)

-- # Shared enumerations (src/parser_util.rs)

/-- `parser_util::ServerType` (also re-declared identically in
src/parse/source_info.rs). -/
inductive ServerType where
  | Dedicated
  | NonDedicated
  | SourceTV
  | Other (raw : Nat)
  deriving DecidableEq, Repr

/-- `parser_util::ServerType::from<u8>` — byte to server type; the same
table appears in both info modules. -/
def serverTypeFrom (input : Nat) : ServerType :=
  match input with
  | 0x44 => ServerType.Dedicated
  | 0x64 => ServerType.Dedicated
  | 0x4C => ServerType.NonDedicated
  | 0x6C => ServerType.NonDedicated
  | 0x50 => ServerType.SourceTV
  | 0x70 => ServerType.SourceTV
  | _ => ServerType.Other input

/-- `Environment` variants (shared shape of `parser_util::Environment` and
`parse::source_info::Environment`, whose variant lists coincide). -/
inductive Environment where
  | Linux
  | Windows
  | MacOS
  | Other (raw : Nat)
  deriving DecidableEq, Repr

/-- `parser_util::Environment::from<u8>`: note 0x4D/0x6D **and** 0x4F/0x6F
map to MacOS in this copy. -/
def environmentFromUtil (input : Nat) : Environment :=
  if input = 0x4C then Environment.Linux
  else if input = 0x6C then Environment.Linux
  else if input = 0x57 then Environment.Windows
  else if input = 0x77 then Environment.Windows
  else if input = 0x4D then Environment.MacOS
  else if input = 0x6D then Environment.MacOS
  else if input = 0x4F then Environment.MacOS
  else if input = 0x6F then Environment.MacOS
  else Environment.Other input

/-- `parse::source_info::Environment::from<u8>`: only 0x4D/0x6D map to
MacOS in this copy; 0x4F/0x6F fall through to `Other`. -/
def environmentFromParse (input : Nat) : Environment :=
  if input = 0x4C then Environment.Linux
  else if input = 0x6C then Environment.Linux
  else if input = 0x57 then Environment.Windows
  else if input = 0x77 then Environment.Windows
  else if input = 0x4D then Environment.MacOS
  else if input = 0x6D then Environment.MacOS
  else Environment.Other input

/-- `parser_util::server_type`: read one byte and convert. -/
def server_type (input : List Nat) : Option (List Nat × ServerType) :=
  match le_u8 input with
  | none => none
  | some (next, res) => some (next, serverTypeFrom res)

/-- `parser_util::environment`: read one byte and convert (util table). -/
def environment (input : List Nat) : Option (List Nat × Environment) :=
  match le_u8 input with
  | none => none
  | some (next, res) => some (next, environmentFromUtil res)

/-- `parse::source_info::environment`: read one byte and convert
(parse-module table). -/
def environmentP (input : List Nat) : Option (List Nat × Environment) :=
  match le_u8 input with
  | none => none
  | some (next, res) => some (next, environmentFromParse res)

end A2S

-- # Source INFO data model (src/info_source.rs; the parse-module copy in
-- src/parse/source_info.rs declares field-for-field identical structs)

namespace A2S

/-- `TheShipGameMode` (identical in both modules). -/
inductive TheShipGameMode where
  | Hunt
  | Elimination
  | Duel
  | Deathmatch
  | VIP_Team
  | Team_Elimination
  | Other (raw : Nat)
  deriving DecidableEq, Repr

/-- `TheShipGameMode::from<u8>`. -/
def theShipGameModeFrom (input : Nat) : TheShipGameMode :=
  match input with
  | 0 => TheShipGameMode.Hunt
  | 1 => TheShipGameMode.Elimination
  | 2 => TheShipGameMode.Duel
  | 3 => TheShipGameMode.Deathmatch
  | 4 => TheShipGameMode.VIP_Team
  | 5 => TheShipGameMode.Team_Elimination
  | _ => TheShipGameMode.Other input

/-- `TheShipFields`: mode, witnesses, duration. -/
structure TheShipFields where
  mode : TheShipGameMode
  witnesses : Nat
  duration : Nat
  deriving DecidableEq, Repr

/-- `ExtraDataFields`: the six EDF-gated optional members. -/
structure ExtraDataFields where
  port : Option Int
  steam_id : Option Nat
  source_tv_port : Option Int
  source_tv_name : Option (List Nat)
  keywords : Option (List Nat)
  game_id : Option Nat
  deriving DecidableEq, Repr

/-- `SourceResponseInfo` (= `parse::source_info::ResponseInfo`, whose field
list is identical). -/
structure SourceResponseInfo where
  protocol : Nat
  name : List Nat
  map : List Nat
  folder : List Nat
  game : List Nat
  app_id : Int
  players : Nat
  max_players : Nat
  bots : Nat
  server_type : ServerType
  environment : Environment
  visibility : Bool
  vac : Bool
  the_ship : Option TheShipFields
  version : List Nat
  extra_data_flag : Nat
  extra_data_fields : ExtraDataFields
  deriving DecidableEq, Repr

-- # Source INFO sub-parsers (identical text in src/info_source.rs and
-- src/parse/source_info.rs)

/-- `the_ship(input, is_ship)`: three bytes when `is_ship`, nothing
otherwise. -/
def the_ship (input : List Nat) (is_ship : Bool) :
    Option (List Nat × Option TheShipFields) :=
  if is_ship then
    pbind (le_u8 input) fun input mode =>
    pbind (le_u8 input) fun input witnesses =>
    pbind (le_u8 input) fun input duration =>
    some (input, some { mode := theShipGameModeFrom mode,
                        witnesses := witnesses, duration := duration })
  else
    some (input, none)

/-- `port(input, flag)`: i16 iff `flag & 0x80 != 0`. -/
def port (input : List Nat) (flag : Nat) : Option (List Nat × Option Int) :=
  if flag &&& 0x80 != 0 then
    pbind (le_i16 input) fun input p => some (input, some p)
  else
    some (input, none)

/-- `steam_id(input, flag)`: u64 iff `flag & 0x10 != 0`. -/
def steam_id (input : List Nat) (flag : Nat) : Option (List Nat × Option Nat) :=
  if flag &&& 0x10 != 0 then
    pbind (le_u64 input) fun input v => some (input, some v)
  else
    some (input, none)

/-- `source_tv_port(input, flag)`: i16 iff `flag & 0x40 != 0`. -/
def source_tv_port (input : List Nat) (flag : Nat) :
    Option (List Nat × Option Int) :=
  if flag &&& 0x40 != 0 then
    pbind (le_i16 input) fun input p => some (input, some p)
  else
    some (input, none)

/-- `source_tv_name(input, flag)`: c-string iff `flag & 0x40 != 0`. -/
def source_tv_name (input : List Nat) (flag : Nat) :
    Option (List Nat × Option (List Nat)) :=
  if flag &&& 0x40 != 0 then
    pbind (c_string input) fun input s => some (input, some s)
  else
    some (input, none)

/-- `keywords(input, flag)`: c-string iff `flag & 0x20 != 0`. -/
def keywords (input : List Nat) (flag : Nat) :
    Option (List Nat × Option (List Nat)) :=
  if flag &&& 0x20 != 0 then
    pbind (c_string input) fun input s => some (input, some s)
  else
    some (input, none)

/-- `game_id(input, flag)`: u64 iff `flag & 0x20 != 0` — this is the test
the source performs (its own doc comment says `EDF & 0x01`). -/
def game_id (input : List Nat) (flag : Nat) : Option (List Nat × Option Nat) :=
  if flag &&& 0x20 != 0 then
    pbind (le_u64 input) fun input v => some (input, some v)
  else
    some (input, none)

/-- `extra_data_fields(input, extra_data_flag)`: the six members decoded in
the fixed order port, steam_id, source_tv_port, source_tv_name, keywords,
game_id. -/
def extra_data_fields (input : List Nat) (extra_data_flag : Nat) :
    Option (List Nat × ExtraDataFields) :=
  pbind (port input extra_data_flag) fun input port =>
  pbind (steam_id input extra_data_flag) fun input steam_id =>
  pbind (source_tv_port input extra_data_flag) fun input source_tv_port =>
  pbind (source_tv_name input extra_data_flag) fun input source_tv_name =>
  pbind (keywords input extra_data_flag) fun input keywords =>
  pbind (game_id input extra_data_flag) fun input game_id =>
  some (input, { port := port, steam_id := steam_id,
                 source_tv_port := source_tv_port,
                 source_tv_name := source_tv_name,
                 keywords := keywords, game_id := game_id })

/-- The `source_info` decode chain, parameterized by the environment
sub-parser: src/info_source.rs and src/parse/source_info.rs contain two
textually identical copies of this chain that differ only in which
`Environment::from` table the `environment` step uses. -/
def source_info_gen (envp : List Nat → Option (List Nat × Environment))
    (input : List Nat) : Option (List Nat × SourceResponseInfo) :=
  pbind (le_u8 input) fun input protocol =>
  pbind (c_string input) fun input name =>
  pbind (c_string input) fun input map =>
  pbind (c_string input) fun input folder =>
  pbind (c_string input) fun input game =>
  pbind (le_i16 input) fun input app_id =>
  pbind (le_u8 input) fun input players =>
  pbind (le_u8 input) fun input max_players =>
  pbind (le_u8 input) fun input bots =>
  pbind (server_type input) fun input stype =>
  pbind (envp input) fun input env =>
  pbind (parse_bool input) fun input visibility =>
  pbind (parse_bool input) fun input vac =>
  pbind (the_ship input (app_id == 2400)) fun input ship =>
  pbind (c_string input) fun input version =>
  pbind (opt_le_u8 input) fun input edf =>
  pbind (extra_data_fields input (edf.getD 0)) fun input fields =>
  some (input,
    { protocol := protocol, name := name, map := map, folder := folder,
      game := game, app_id := app_id, players := players,
      max_players := max_players, bots := bots, server_type := stype,
      environment := env, visibility := visibility, vac := vac,
      the_ship := ship, version := version,
      extra_data_flag := edf.getD 0, extra_data_fields := fields })

/-- `info_source::source_info`: uses `parser_util::environment`. -/
def source_info (input : List Nat) : Option (List Nat × SourceResponseInfo) :=
  source_info_gen environment input

/-- `info_source::p_source_info` = `all_consuming(source_info)`. -/
def p_source_info (input : List Nat) : Option (List Nat × SourceResponseInfo) :=
  match source_info input with
  | some ([], v) => some ([], v)
  | _ => none

/-- `info_source::parse_source_info`: the public entry point. -/
def parse_source_info (input : List Nat) : Option SourceResponseInfo :=
  match p_source_info input with
  | some (_, v) => some v
  | none => none

/-- `parse::source_info::source_info`: the parse-module copy, whose only
difference is its own `Environment::from` table. -/
def source_infoP (input : List Nat) : Option (List Nat × SourceResponseInfo) :=
  source_info_gen environmentP input

/-- `parse::source_info::p_source_info` = `all_consuming(source_info)`. -/
def p_source_infoP (input : List Nat) : Option (List Nat × SourceResponseInfo) :=
  match source_infoP input with
  | some ([], v) => some ([], v)
  | _ => none

/-- `parse::parse_source_info`: the parse-module public entry point. -/
def parse_source_infoP (input : List Nat) : Option SourceResponseInfo :=
  match p_source_infoP input with
  | some (_, v) => some v
  | none => none

end A2S

-- # PLAYER decoder (src/player.rs)

namespace A2S

/-- `player::TheShipData`: per-player Ship extension pair. -/
structure TheShipData where
  deaths : Int
  money : Int
  deriving DecidableEq, Repr

/-- `player::PlayerData`: one primary player entry; `duration` holds the raw
32-bit pattern of the f32. -/
structure PlayerData where
  index : Nat
  name : List Nat
  score : Int
  duration : Nat
  ship_data : Option TheShipData
  deriving DecidableEq, Repr

/-- `player::ResponsePlayer`. -/
structure ResponsePlayer where
  players : Nat
  player_data : List PlayerData
  deriving DecidableEq, Repr

/-- nom `many_m_n(0, max, p)`: apply `p` greedily at most `max` times; a
failing application ends the repetition without error (min is 0). -/
def many_m_n (max : Nat) (p : List Nat → Option (List Nat × α))
    (input : List Nat) : Option (List Nat × List α) :=
  match max with
  | 0 => some (input, [])
  | m + 1 =>
    match p input with
    | none => some (input, [])
    | some (rest, v) =>
      match many_m_n m p rest with
      | some (rest2, vs) => some (rest2, v :: vs)
      | none => none

/-- `player::player_data`: index byte, name c-string, score i32,
duration f32; `ship_data` starts out `None`. -/
def player_data (input : List Nat) : Option (List Nat × PlayerData) :=
  pbind (le_u8 input) fun input index =>
  pbind (c_string input) fun input name =>
  pbind (le_i32 input) fun input score =>
  pbind (le_f32 input) fun input duration =>
  some (input, { index := index, name := name, score := score,
                 duration := duration, ship_data := none })

/-- `player::many_player_data`: up to `player_count` primary entries. -/
def many_player_data (input : List Nat) (player_count : Nat) :
    Option (List Nat × List PlayerData) :=
  many_m_n player_count player_data input

/-- `player::ship_data`: deaths i32, money i32. -/
def ship_data (input : List Nat) : Option (List Nat × TheShipData) :=
  pbind (le_i32 input) fun input deaths =>
  pbind (le_i32 input) fun input money =>
  some (input, { deaths := deaths, money := money })

/-- `player::many_the_ship_data`: up to `players` extension pairs. -/
def many_the_ship_data (input : List Nat) (players : Nat) :
    Option (List Nat × List TheShipData) :=
  many_m_n players ship_data input

/-- The `iter_mut().zip(...)` merge in `player::player`: overwrite the
`ship_data` of the first `min(n, m)` entries positionally, leaving any
surplus entries untouched. -/
def zipShip : List PlayerData → List TheShipData → List PlayerData
  | [], _ => []
  | ps, [] => ps
  | p :: ps, s :: ss => { p with ship_data := some s } :: zipShip ps ss

/-- `player::player`: count byte, greedy primary pass, greedy Ship-extension
pass, then attach extensions by position whenever the extension list is
non-empty. -/
def player (input : List Nat) : Option (List Nat × ResponsePlayer) :=
  pbind (le_u8 input) fun input players =>
  pbind (many_player_data input players) fun input pdata =>
  pbind (many_the_ship_data input players) fun input sdata =>
  some (input, { players := players,
                 player_data := if sdata.isEmpty then pdata
                                else zipShip pdata sdata })

/-- `player::p_player` = `all_consuming(player)`. -/
def p_player (input : List Nat) : Option (List Nat × ResponsePlayer) :=
  match player input with
  | some ([], v) => some ([], v)
  | _ => none

/-- `player::parse_player`: the public entry point. -/
def parse_player (input : List Nat) : Option ResponsePlayer :=
  match p_player input with
  | some (_, v) => some v
  | none => none

end A2S

-- # Packet envelope and fragment decoders (src/packet.rs, src/parse/packet.rs)

namespace A2S

/-- `packet::PacketFragment` (payload kept as raw bytes). -/
structure PacketFragment where
  id : Int
  total_packets : Nat
  packet_number : Nat
  payload : List Nat
  payload_compressed : Bool
  size : Option Int
  decompressed_size : Option Int
  crc32_checksum : Option Int
  deriving DecidableEq, Repr

/-- `packet::is_split`: 4-byte signed LE marker; -1 means single packet
(false), -2 means split (true), anything else is an error. -/
def is_split (input : List Nat) : Option (List Nat × Bool) :=
  pbind (le_i32 input) fun input packet_header =>
  if ¬(packet_header = -1 ∨ packet_header = -2) then none
  else some (input, packet_header == -2)

/-- `packet::is_payload_split`: the public classifier. -/
def is_payload_split (input : List Nat) : Option Bool :=
  match is_split input with
  | some (_, v) => some v
  | none => none

/-- `packet::source_multi_packet`: Source-dialect fragment header with
optional size and (first-fragment, negative-id) compression metadata. -/
def source_multi_packet (input : List Nat) (size_included : Bool) :
    Option (List Nat × PacketFragment) :=
  pbind (le_i32 input) fun input id =>
  pbind (le_u8 input) fun input total_packets =>
  pbind (le_u8 input) fun input packet_number =>
  pbind (if size_included then
           pbind (le_i16 input) fun input v => some (input, some v)
         else some (input, none)) fun input size =>
  pbind (if packet_number == 0 && id < 0 then
           pbind (le_i32 input) fun input v => some (input, some v)
         else some (input, none)) fun input decompressed_size =>
  pbind (if packet_number == 0 && id < 0 then
           pbind (le_i32 input) fun input v => some (input, some v)
         else some (input, none)) fun input crc32_checksum =>
  pbind (take_rest input) fun input payload =>
  some (input,
    { id := id, total_packets := total_packets,
      packet_number := packet_number, payload := payload,
      payload_compressed := packet_number == 0 && id < 0, size := size,
      decompressed_size := decompressed_size,
      crc32_checksum := crc32_checksum })

/-- `packet::parse_source_multi_packet`: the public entry point. -/
def parse_source_multi_packet (input : List Nat) (size : Bool) :
    Option PacketFragment :=
  match source_multi_packet input size with
  | some (_, v) => some v
  | none => none

/-- `packet::goldsource_multi_packet`, exactly as written: the ordering byte
is shifted right by four and the shadowed, already-shifted value is then
masked with 0x0F to produce `total_packets`. -/
def goldsource_multi_packet (input : List Nat) :
    Option (List Nat × PacketFragment) :=
  pbind (le_i32 input) fun input id =>
  pbind (le_u8 input) fun input packet_number =>
  let packet_number := packet_number / 16
  let total_packets := packet_number % 16
  pbind (take_rest input) fun input payload =>
  some (input,
    { id := id, total_packets := total_packets,
      packet_number := packet_number, payload := payload,
      payload_compressed := false, size := none,
      decompressed_size := none, crc32_checksum := none })

/-- `packet::parse_goldsource_multi_packet`: the public entry point. -/
def parse_goldsource_multi_packet (input : List Nat) : Option PacketFragment :=
  match goldsource_multi_packet input with
  | some (_, v) => some v
  | none => none

/-- `parse::packet::GoldsourceMultiPacket`: the parse-module fragment record
(keeps the raw ordering byte alongside the two nibbles). -/
structure GoldsourceMultiPacket where
  id : Int
  packet_number : Nat
  current_packet : Nat
  total_packets : Nat
  payload : List Nat
  deriving DecidableEq, Repr

/-- `parse::packet::p_goldsource_multi_packet`: the parse-module decoder,
which masks the *raw* byte for `total_packets`. -/
def p_goldsource_multi_packet (input : List Nat) :
    Option (List Nat × GoldsourceMultiPacket) :=
  pbind (le_i32 input) fun input id =>
  pbind (le_u8 input) fun input packet_number =>
  let current_packet := packet_number / 16
  let total_packets := packet_number % 16
  pbind (take_rest input) fun input payload =>
  some (input,
    { id := id, packet_number := packet_number,
      current_packet := current_packet, total_packets := total_packets,
      payload := payload })

end A2S

-- # GoldSource INFO decoder (src/info_goldsource.rs)

namespace A2S

/-- `info_goldsource::ModType`. -/
inductive ModType where
  | SingleAndMultiplayer
  | MultiplayerOnly
  | Other (raw : Nat)
  deriving DecidableEq, Repr

/-- `ModType::from<u8>`. -/
def modTypeFrom (input : Nat) : ModType :=
  match input with
  | 0 => ModType.SingleAndMultiplayer
  | 1 => ModType.MultiplayerOnly
  | _ => ModType.Other input

/-- `info_goldsource::ModDLL`. -/
inductive ModDLL where
  | HalfLife
  | Custom
  | Other (raw : Nat)
  deriving DecidableEq, Repr

/-- `ModDLL::from<u8>`. -/
def modDLLFrom (input : Nat) : ModDLL :=
  match input with
  | 0 => ModDLL.HalfLife
  | 1 => ModDLL.Custom
  | _ => ModDLL.Other input

/-- `info_goldsource::HalfLifeMod`. -/
structure HalfLifeMod where
  link : List Nat
  download_link : List Nat
  version : Int
  size : Int
  mod_type : ModType
  dll : ModDLL
  deriving DecidableEq, Repr

/-- `info_goldsource::GoldSourceResponseInfo`. -/
structure GoldSourceResponseInfo where
  address : List Nat
  name : List Nat
  map : List Nat
  folder : List Nat
  game : List Nat
  players : Nat
  max_players : Nat
  protocol : Nat
  server_type : ServerType
  environment : Environment
  visibility : Bool
  mod_half_life : Bool
  mod_fields : Option HalfLifeMod
  vac : Bool
  bots : Nat
  deriving DecidableEq, Repr

/-- `info_goldsource::mod_fields(input, is_mod)`: the nested HalfLifeMod
block, decoded only when the mod flag was set. -/
def mod_fields (input : List Nat) (is_mod : Bool) :
    Option (List Nat × Option HalfLifeMod) :=
  if is_mod then
    pbind (c_string input) fun input link =>
    pbind (c_string input) fun input download_link =>
    pbind (parse_null input) fun input _ =>
    pbind (le_i32 input) fun input version =>
    pbind (le_i32 input) fun input size =>
    pbind (le_u8 input) fun input mod_type =>
    pbind (le_u8 input) fun input dll =>
    some (input, some { link := link, download_link := download_link,
                        version := version, size := size,
                        mod_type := modTypeFrom mod_type,
                        dll := modDLLFrom dll })
  else
    some (input, none)

/-- `info_goldsource::goldsource_info`: the GoldSource record decode chain. -/
def goldsource_info (input : List Nat) :
    Option (List Nat × GoldSourceResponseInfo) :=
  pbind (c_string input) fun input address =>
  pbind (c_string input) fun input name =>
  pbind (c_string input) fun input map =>
  pbind (c_string input) fun input folder =>
  pbind (c_string input) fun input game =>
  pbind (le_u8 input) fun input players =>
  pbind (le_u8 input) fun input max_players =>
  pbind (le_u8 input) fun input protocol =>
  pbind (server_type input) fun input stype =>
  pbind (environment input) fun input env =>
  pbind (parse_bool input) fun input visibility =>
  pbind (parse_bool input) fun input mod_half_life =>
  pbind (mod_fields input mod_half_life) fun input mods =>
  pbind (parse_bool input) fun input vac =>
  pbind (le_u8 input) fun input bots =>
  some (input,
    { address := address, name := name, map := map, folder := folder,
      game := game, players := players, max_players := max_players,
      protocol := protocol, server_type := stype, environment := env,
      visibility := visibility, mod_half_life := mod_half_life,
      mod_fields := mods, vac := vac, bots := bots })

/-- `info_goldsource::p_goldsource_info` = `all_consuming(goldsource_info)`. -/
def p_goldsource_info (input : List Nat) :
    Option (List Nat × GoldSourceResponseInfo) :=
  match goldsource_info input with
  | some ([], v) => some ([], v)
  | _ => none

/-- `info_goldsource::parse_goldsource_info`: the public entry point. -/
def parse_goldsource_info (input : List Nat) : Option GoldSourceResponseInfo :=
  match p_goldsource_info input with
  | some (_, v) => some v
  | none => none

end A2S

-- # Sanity checks: the repository's own test vectors, re-evaluated against
-- the embedding

namespace A2S

/-- The 95-byte Counter-Strike Source INFO fixture from the `info_css` test
in src/info_source.rs. -/
def cssVector : List Nat :=
  [0x02, 0x67, 0x61, 0x6D, 0x65, 0x32, 0x78, 0x73, 0x2E, 0x63, 0x6F, 0x6D,
   0x20, 0x43, 0x6F, 0x75, 0x6E, 0x74, 0x65, 0x72, 0x2D, 0x53, 0x74, 0x72,
   0x69, 0x6B, 0x65, 0x20, 0x53, 0x6F, 0x75, 0x72, 0x63, 0x65, 0x20, 0x23,
   0x31, 0x00, 0x64, 0x65, 0x5F, 0x64, 0x75, 0x73, 0x74, 0x00, 0x63, 0x73,
   0x74, 0x72, 0x69, 0x6B, 0x65, 0x00, 0x43, 0x6F, 0x75, 0x6E, 0x74, 0x65,
   0x72, 0x2D, 0x53, 0x74, 0x72, 0x69, 0x6B, 0x65, 0x3A, 0x20, 0x53, 0x6F,
   0x75, 0x72, 0x63, 0x65, 0x00, 0xF0, 0x00, 0x05, 0x10, 0x04, 0x64, 0x6C,
   0x00, 0x00, 0x31, 0x2E, 0x30, 0x2E, 0x30, 0x2E, 0x32, 0x32, 0x00]

example :
    (parse_source_info cssVector).map (fun r =>
      (r.protocol, r.app_id, r.players, r.max_players, r.bots, r.server_type,
       r.environment, r.visibility, r.vac, r.the_ship, r.extra_data_flag,
       r.extra_data_fields)) =
    some (2, 240, 5, 16, 4, ServerType.Dedicated, Environment.Linux, false,
          false, none, 0, ⟨none, none, none, none, none, none⟩) := by rfl

/-- The 56-byte The Ship INFO fixture from the `info_the_ship` test in
src/info_source.rs. -/
def shipVector : List Nat :=
  [0x07, 0x53, 0x68, 0x69, 0x70, 0x20, 0x53, 0x65, 0x72, 0x76, 0x65, 0x72,
   0x00, 0x62, 0x61, 0x74, 0x61, 0x76, 0x69, 0x65, 0x72, 0x00, 0x73, 0x68,
   0x69, 0x70, 0x00, 0x54, 0x68, 0x65, 0x20, 0x53, 0x68, 0x69, 0x70, 0x00,
   0x60, 0x09, 0x01, 0x05, 0x00, 0x6C, 0x77, 0x00, 0x00, 0x01, 0x03, 0x03,
   0x31, 0x2E, 0x30, 0x2E, 0x30, 0x2E, 0x34, 0x00]

example :
    (parse_source_info shipVector).map (fun r =>
      (r.protocol, r.app_id, r.players, r.max_players, r.bots, r.server_type,
       r.environment, r.the_ship, r.extra_data_flag)) =
    some (7, 2400, 1, 5, 0, ServerType.NonDedicated, Environment.Windows,
          some ⟨TheShipGameMode.Elimination, 3, 3⟩, 0) := by rfl

/-- The 29-byte truncated PLAYER fixture from the `connecting_player` test in
src/player.rs: declared count 2, one complete entry. -/
def connectingPlayerVector : List Nat :=
  [0x02, 0x01, 0x5B, 0x44, 0x5D, 0x2D, 0x2D, 0x2D, 0x2D, 0x3E, 0x54, 0x2E,
   0x4E, 0x2E, 0x57, 0x3C, 0x2D, 0x2D, 0x2D, 0x2D, 0x00, 0x0E, 0x00, 0x00,
   0x00, 0xB4, 0x97, 0x00, 0x44]

example :
    (parse_player connectingPlayerVector).map (fun r =>
      (r.players, r.player_data.length,
       r.player_data.map (fun p => (p.index, p.score, p.ship_data)))) =
    some (2, 1, [(1, 14, none)]) := by rfl

end A2S

-- # Helper lemmas about the combinators

namespace A2S

theorem pbind_eq_some {α β : Type} {x : Option (List Nat × α)}
    {f : List Nat → α → Option β} {b : β} :
    pbind x f = some b ↔ ∃ i a, x = some (i, a) ∧ f i a = some b := by
  cases x with
  | none => simp [pbind]
  | some p =>
    obtain ⟨i, a⟩ := p
    simp only [pbind, Option.some.injEq, Prod.mk.injEq]
    constructor
    · intro h
      exact ⟨i, a, ⟨rfl, rfl⟩, h⟩
    · rintro ⟨i', a', ⟨rfl, rfl⟩, h⟩
      exact h

theorem pbind_congr_map {α β : Type} (x : Option (List Nat × α))
    (f g : List Nat → α → Option (List Nat × β)) (t : β → β)
    (h : ∀ i a, f i a = Option.map (fun p => (p.1, t p.2)) (g i a)) :
    pbind x f = Option.map (fun p => (p.1, t p.2)) (pbind x g) := by
  cases x with
  | none => simp [pbind]
  | some p =>
    obtain ⟨i, a⟩ := p
    simpa [pbind] using h i a

end A2S

-- # Claim theorems

namespace A2S

/-- C1: the claim (and the source's own doc comment) designate bit `0x01`
as the EDF gate for `game_id`, but the code tests `flag & 0x20`.  Evaluating
`extra_data_fields` at the failing input: with flag `0x01` and eight bytes
available, `game_id` stays `None` and the bytes are not consumed; the same
bytes prefixed with an empty keywords string are instead decoded as
`game_id` under flag `0x20`. -/
theorem C1_game_id_bit_eval :
    extra_data_fields [9, 0, 0, 0, 0, 0, 0, 0] 0x01 =
      some ([9, 0, 0, 0, 0, 0, 0, 0],
        { port := none, steam_id := none, source_tv_port := none,
          source_tv_name := none, keywords := none, game_id := none }) ∧
    extra_data_fields [0, 9, 0, 0, 0, 0, 0, 0, 0] 0x20 =
      some ([],
        { port := none, steam_id := none, source_tv_port := none,
          source_tv_name := none, keywords := some [], game_id := some 9 }) := by
  exact ⟨rfl, rfl⟩

/-- C4: the claim says the GoldSource fragment decoder returns the ordering
byte's high nibble as the sequence number and its **low** nibble as the total
count.  `packet.rs` shadows the byte with its shifted value before masking,
so for ordering byte 0x12 it returns `total_packets = 1` (the high nibble
again) instead of 2; the parse-module twin decodes the same bytes to
`total_packets = 2` as claimed. -/
theorem C4_nibble_eval :
    goldsource_multi_packet [0, 0, 0, 0, 0x12, 0xAB] =
      some ([], { id := 0, total_packets := 1, packet_number := 1,
                  payload := [0xAB], payload_compressed := false,
                  size := none, decompressed_size := none,
                  crc32_checksum := none }) ∧
    p_goldsource_multi_packet [0, 0, 0, 0, 0x12, 0xAB] =
      some ([], { id := 0, packet_number := 0x12, current_packet := 1,
                  total_packets := 2, payload := [0xAB] }) := by
  exact ⟨rfl, rfl⟩

/-- C5 counterexample: on the empty input the PLAYER decoder does **not**
return the empty record the claim promises. -/
theorem C5_counterexample :
    parse_player [] ≠ some { players := 0, player_data := [] } := by
  intro h
  simp [parse_player, p_player, player, pbind, le_u8,
        many_player_data, many_the_ship_data] at h

/-- C5 amended: the leading `player_count` byte is mandatory — on the empty
input `parse_player` fails (the first `le_u8` read reports end of input)
instead of returning an empty record. -/
theorem C5_empty_is_error : parse_player [] = none := by rfl

/-- C6: for every input of at least four bytes the envelope classifier reads
the 4-byte signed little-endian header and returns `false` (single packet)
exactly for -1, `true` (fragment) exactly for -2, and an error for every
other header value. -/
theorem C6_envelope_classifier (b0 b1 b2 b3 : Nat) (rest : List Nat) :
    is_payload_split (b0 :: b1 :: b2 :: b3 :: rest) =
      (if toI32 b0 b1 b2 b3 = -1 then some false
       else if toI32 b0 b1 b2 b3 = -2 then some true
       else none) := by
  unfold is_payload_split is_split le_i32 pbind
  by_cases h1 : toI32 b0 b1 b2 b3 = -1
  · simp [h1]
  · by_cases h2 : toI32 b0 b1 b2 b3 = -2 <;> simp [h1, h2]

end A2S

namespace A2S

theorem le_u8_drop {input i : List Nat} {v : Nat} :
    le_u8 input = some (i, v) → i = input.drop 1 := by
  intro h
  cases input with
  | nil => simp [le_u8] at h
  | cons b t =>
    simp only [le_u8, Option.some.injEq, Prod.mk.injEq] at h
    simpa using h.1.symm

theorem le_i16_drop {input i : List Nat} {v : Int} :
    le_i16 input = some (i, v) → i = input.drop 2 := by
  intro h
  rcases input with _ | ⟨b0, _ | ⟨b1, t⟩⟩
  · simp [le_i16] at h
  · simp [le_i16] at h
  · simp only [le_i16, Option.some.injEq, Prod.mk.injEq] at h
    simpa using h.1.symm

theorem le_i32_drop {input i : List Nat} {v : Int} :
    le_i32 input = some (i, v) → i = input.drop 4 := by
  intro h
  rcases input with _ | ⟨b0, _ | ⟨b1, _ | ⟨b2, _ | ⟨b3, t⟩⟩⟩⟩
  · simp [le_i32] at h
  · simp [le_i32] at h
  · simp [le_i32] at h
  · simp [le_i32] at h
  · simp only [le_i32, Option.some.injEq, Prod.mk.injEq] at h
    simpa using h.1.symm

/-- C7: in the Source fragment decoder, the compression metadata
(`decompressed_size` then `crc32`) is decoded — and `Some` in the result —
exactly when the sequence number is 0 and the 32-bit id is negative;
otherwise both stay `None` and the payload is the remainder after the fixed
header (4-byte id, two count bytes, and the 2-byte size when present),
unchanged. -/
theorem C7_compression (input : List Nat) (size_included : Bool)
    (rest : List Nat) (frag : PacketFragment)
    (h : source_multi_packet input size_included = some (rest, frag)) :
    ((frag.decompressed_size.isSome ∧ frag.crc32_checksum.isSome) ↔
      (frag.packet_number = 0 ∧ frag.id < 0)) ∧
    (¬(frag.packet_number = 0 ∧ frag.id < 0) →
      frag.decompressed_size = none ∧ frag.crc32_checksum = none ∧
      frag.payload = input.drop (if size_included then 8 else 6)) := by
  unfold source_multi_packet at h
  rw [pbind_eq_some] at h
  obtain ⟨i1, id, h1, h⟩ := h
  rw [pbind_eq_some] at h
  obtain ⟨i2, total, h2, h⟩ := h
  rw [pbind_eq_some] at h
  obtain ⟨i3, number, h3, h⟩ := h
  rw [pbind_eq_some] at h
  obtain ⟨i4, size, h4, h⟩ := h
  rw [pbind_eq_some] at h
  obtain ⟨i5, dsz, h5, h⟩ := h
  rw [pbind_eq_some] at h
  obtain ⟨i6, crc, h6, h⟩ := h
  rw [pbind_eq_some] at h
  obtain ⟨i7, payload, h7, h⟩ := h
  simp only [Option.some.injEq, Prod.mk.injEq] at h
  obtain ⟨hrest, hfrag⟩ := h
  subst hfrag
  dsimp only
  have hi1 : i1 = input.drop 4 := le_i32_drop h1
  have hi2 : i2 = i1.drop 1 := le_u8_drop h2
  have hi3 : i3 = i2.drop 1 := le_u8_drop h3
  have hpay : payload = i6 := by
    simp only [take_rest, Option.some.injEq, Prod.mk.injEq] at h7
    exact h7.2.symm
  by_cases hc : (number == 0 && decide (id < 0)) = true
  · rw [if_pos hc] at h5 h6
    rw [pbind_eq_some] at h5
    obtain ⟨j5, v5, hv5, h5⟩ := h5
    rw [pbind_eq_some] at h6
    obtain ⟨j6, v6, hv6, h6⟩ := h6
    simp only [Option.some.injEq, Prod.mk.injEq] at h5 h6
    obtain ⟨rfl, rfl⟩ := h5
    obtain ⟨rfl, rfl⟩ := h6
    have hcp : number = 0 ∧ id < 0 := by
      simpa [Bool.and_eq_true, beq_iff_eq, decide_eq_true_iff] using hc
    constructor
    · simp only [Option.isSome_some, true_and]
      exact ⟨fun _ => hcp, fun _ => trivial⟩
    · intro hn
      exact absurd hcp hn
  · rw [if_neg hc] at h5 h6
    simp only [Option.some.injEq, Prod.mk.injEq] at h5 h6
    obtain ⟨hi5, rfl⟩ := h5
    obtain ⟨hi6, rfl⟩ := h6
    have hcn : ¬(number = 0 ∧ id < 0) := by
      intro hcontra
      exact hc (by simpa [Bool.and_eq_true, beq_iff_eq, decide_eq_true_iff]
                    using hcontra)
    constructor
    · simp only [Option.isSome_none, Bool.false_eq_true, false_and, false_iff]
      exact fun hcontra => hcn hcontra
    · intro _
      refine ⟨rfl, rfl, ?_⟩
      rw [hpay, ← hi6, ← hi5]
      cases size_included with
      | false =>
        rw [if_neg (by simp)] at h4
        simp only [Option.some.injEq, Prod.mk.injEq] at h4
        obtain ⟨rfl, rfl⟩ := h4
        rw [if_neg (by simp), hi3, hi2, hi1]
        simp [List.drop_drop]
      | true =>
        rw [if_pos rfl] at h4
        rw [pbind_eq_some] at h4
        obtain ⟨j4, v4, hv4, h4⟩ := h4
        simp only [Option.some.injEq, Prod.mk.injEq] at h4
        obtain ⟨rfl, rfl⟩ := h4
        rw [if_pos rfl, le_i16_drop hv4, hi3, hi2, hi1]
        simp [List.drop_drop]

end A2S

namespace A2S

/-- Witness for C7: a concrete compressed first fragment (id -1, sequence
number 0, no size field) discharging the hypothesis of `C7_compression`. -/
theorem C7_witness :
    (((⟨-1, 3, 0, [9], true, none, some 1, some 2⟩ :
        PacketFragment).decompressed_size.isSome ∧
      (⟨-1, 3, 0, [9], true, none, some 1, some 2⟩ :
        PacketFragment).crc32_checksum.isSome) ↔
      ((⟨-1, 3, 0, [9], true, none, some 1, some 2⟩ :
         PacketFragment).packet_number = 0 ∧
       (⟨-1, 3, 0, [9], true, none, some 1, some 2⟩ :
         PacketFragment).id < 0)) ∧
    (¬((⟨-1, 3, 0, [9], true, none, some 1, some 2⟩ :
         PacketFragment).packet_number = 0 ∧
       (⟨-1, 3, 0, [9], true, none, some 1, some 2⟩ :
         PacketFragment).id < 0) →
      (⟨-1, 3, 0, [9], true, none, some 1, some 2⟩ :
        PacketFragment).decompressed_size = none ∧
      (⟨-1, 3, 0, [9], true, none, some 1, some 2⟩ :
        PacketFragment).crc32_checksum = none ∧
      (⟨-1, 3, 0, [9], true, none, some 1, some 2⟩ :
        PacketFragment).payload =
        List.drop (if false then 8 else 6)
          [255, 255, 255, 255, 3, 0, 1, 0, 0, 0, 2, 0, 0, 0, 9]) :=
  C7_compression [255, 255, 255, 255, 3, 0, 1, 0, 0, 0, 2, 0, 0, 0, 9]
    false [] ⟨-1, 3, 0, [9], true, none, some 1, some 2⟩ (by rfl)

/-- In a successful `the_ship` parse the result is populated exactly when the
flag passed in was true. -/
theorem the_ship_isSome {input rest : List Nat} {b : Bool}
    {v : Option TheShipFields} (h : the_ship input b = some (rest, v)) :
    v.isSome = b := by
  cases b with
  | false =>
    simp only [the_ship, Bool.false_eq_true, if_false, Option.some.injEq,
               Prod.mk.injEq] at h
    rw [← h.2]
    rfl
  | true =>
    rw [the_ship, if_pos rfl] at h
    rw [pbind_eq_some] at h
    obtain ⟨j1, mode, _, h⟩ := h
    rw [pbind_eq_some] at h
    obtain ⟨j2, wit, _, h⟩ := h
    rw [pbind_eq_some] at h
    obtain ⟨j3, dur, _, h⟩ := h
    simp only [Option.some.injEq, Prod.mk.injEq] at h
    rw [← h.2]
    rfl

/-- C2 amended: in every successful Source INFO decode, `the_ship` is `Some`
iff `app_id = 2400` — the code gates the three Ship bytes on equality with
2400 alone, not on membership in the seven-element id set the claim lists. -/
theorem C2_ship_gate (input rest : List Nat) (r : SourceResponseInfo)
    (h : source_info input = some (rest, r)) :
    r.the_ship.isSome ↔ r.app_id = 2400 := by
  unfold source_info source_info_gen at h
  rw [pbind_eq_some] at h
  obtain ⟨i1, protocol, h1, h⟩ := h
  rw [pbind_eq_some] at h
  obtain ⟨i2, nmv, h2, h⟩ := h
  rw [pbind_eq_some] at h
  obtain ⟨i3, mpv, h3, h⟩ := h
  rw [pbind_eq_some] at h
  obtain ⟨i4, flv, h4, h⟩ := h
  rw [pbind_eq_some] at h
  obtain ⟨i5, gmv, h5, h⟩ := h
  rw [pbind_eq_some] at h
  obtain ⟨i6, app_id, h6, h⟩ := h
  rw [pbind_eq_some] at h
  obtain ⟨i7, players, h7, h⟩ := h
  rw [pbind_eq_some] at h
  obtain ⟨i8, maxp, h8, h⟩ := h
  rw [pbind_eq_some] at h
  obtain ⟨i9, bots, h9, h⟩ := h
  rw [pbind_eq_some] at h
  obtain ⟨i10, stype, h10, h⟩ := h
  rw [pbind_eq_some] at h
  obtain ⟨i11, env, h11, h⟩ := h
  rw [pbind_eq_some] at h
  obtain ⟨i12, vis, h12, h⟩ := h
  rw [pbind_eq_some] at h
  obtain ⟨i13, vacv, h13, h⟩ := h
  rw [pbind_eq_some] at h
  obtain ⟨i14, ship, hship, h⟩ := h
  rw [pbind_eq_some] at h
  obtain ⟨i15, ver, h15, h⟩ := h
  rw [pbind_eq_some] at h
  obtain ⟨i16, edf, h16, h⟩ := h
  rw [pbind_eq_some] at h
  obtain ⟨i17, fields, h17, h⟩ := h
  simp only [Option.some.injEq, Prod.mk.injEq] at h
  obtain ⟨hrest, hr⟩ := h
  subst hr
  dsimp only
  rw [the_ship_isSome hship]
  exact beq_iff_eq

/-- A 15-byte Source INFO buffer whose app_id is 2401 (a member of the
claim's Ship id set) and which carries no Ship bytes. -/
def c2Vector : List Nat :=
  [0, 0, 0, 0, 0, 0x61, 0x09, 0, 0, 0, 0x64, 0x6C, 0, 0, 0]

/-- C2 counterexample: the buffer decodes successfully with app_id 2401 —
in the claim's set — yet `the_ship` is `None`. -/
theorem C2_counterexample :
    ∃ r, parse_source_info c2Vector = some r ∧ r.app_id = 2401 ∧
      r.the_ship = none :=
  ⟨_, rfl, rfl, rfl⟩

/-- An 18-byte Source INFO buffer for app_id 2400 with Ship bytes 1, 3, 3. -/
def c2400Vector : List Nat :=
  [0, 0, 0, 0, 0, 0x60, 0x09, 0, 0, 0, 0x64, 0x6C, 0, 0, 1, 3, 3, 0]

/-- The record `c2400Vector` decodes to. -/
def c2400Record : SourceResponseInfo :=
  ⟨0, [], [], [], [], 2400, 0, 0, 0, ServerType.Dedicated, Environment.Linux,
   false, false, some ⟨TheShipGameMode.Elimination, 3, 3⟩, [], 0,
   ⟨none, none, none, none, none, none⟩⟩

/-- Witness for C2 at the concrete app-id-2400 buffer. -/
theorem C2_witness : c2400Record.the_ship.isSome ↔ c2400Record.app_id = 2400 :=
  C2_ship_gate c2400Vector [] c2400Record (by rfl)

end A2S

namespace A2S

theorem pbind_some {α β : Type} (i : List Nat) (a : α)
    (f : List Nat → α → Option β) : pbind (some (i, a)) f = f i a := rfl

/-- A freshly parsed primary player entry always carries `ship_data = None`. -/
theorem player_data_none {input rest : List Nat} {p : PlayerData}
    (h : player_data input = some (rest, p)) : p.ship_data = none := by
  unfold player_data at h
  rw [pbind_eq_some] at h
  obtain ⟨j1, idx, _, h⟩ := h
  rw [pbind_eq_some] at h
  obtain ⟨j2, nmv, _, h⟩ := h
  rw [pbind_eq_some] at h
  obtain ⟨j3, sc, _, h⟩ := h
  rw [pbind_eq_some] at h
  obtain ⟨j4, du, _, h⟩ := h
  simp only [Option.some.injEq, Prod.mk.injEq] at h
  rw [← h.2]

/-- Every entry of a successful primary pass has `ship_data = None`. -/
theorem many_player_data_none :
    ∀ (cnt : Nat) (input rest : List Nat) (ps : List PlayerData),
      many_m_n cnt player_data input = some (rest, ps) →
      ∀ p ∈ ps, p.ship_data = none := by
  intro cnt
  induction cnt with
  | zero =>
    intro input rest ps h p hp
    simp only [many_m_n, Option.some.injEq, Prod.mk.injEq] at h
    rw [← h.2] at hp
    simp at hp
  | succ n ih =>
    intro input rest ps h p hp
    simp only [many_m_n] at h
    cases hp1 : player_data input with
    | none =>
      simp only [hp1, Option.some.injEq, Prod.mk.injEq] at h
      rw [← h.2] at hp
      simp at hp
    | some pr =>
      obtain ⟨j1, v⟩ := pr
      simp only [hp1] at h
      cases hm : many_m_n n player_data j1 with
      | none =>
        simp only [hm] at h
        exact absurd h (by simp)
      | some pr2 =>
        obtain ⟨j2, vs⟩ := pr2
        simp only [hm, Option.some.injEq, Prod.mk.injEq] at h
        rw [← h.2] at hp
        rcases List.mem_cons.mp hp with rfl | hmem
        · exact player_data_none hp1
        · exact ih j1 j2 vs hm p hmem

/-- Positional attachment: in `zipShip ps ss` (with all of `ps` initially
unextended), entry `i` carries an extension exactly when `i < ss.length`. -/
theorem zipShip_get (ps : List PlayerData) : ∀ (ss : List TheShipData),
    (∀ p ∈ ps, p.ship_data = none) →
    ∀ i (hi : i < (zipShip ps ss).length),
      (zipShip ps ss)[i].ship_data.isSome = true ↔ i < ss.length := by
  induction ps with
  | nil =>
    intro ss hnone i hi
    simp [zipShip] at hi
  | cons p ps ih =>
    intro ss hnone i hi
    cases ss with
    | nil =>
      simp only [zipShip] at hi ⊢
      have hmem : (p :: ps)[i] ∈ p :: ps := List.getElem_mem hi
      rw [hnone _ hmem]
      simp
    | cons s ss =>
      cases i with
      | zero => simp [zipShip]
      | succ k =>
        simp only [zipShip, List.length_cons, Nat.add_lt_add_iff_right]
          at hi ⊢
        rw [List.getElem_cons_succ]
        rw [ih ss (fun q hq => hnone q (List.mem_cons_of_mem _ hq)) k hi]

/-- C3 amended: for a successful PLAYER decode whose primary pass yields
`pdata` (length n) and whose extension pass yields `sdata` (length m), entry
`i` of the result carries `ship_data = Some` **iff `i < m`** — the code zips
whenever the extension list is non-empty, attaching extensions to the first
`min(n, m)` entries, rather than requiring `m = n` (and when `m ≥ n`, every
entry is extended even though `m ≠ n`). -/
theorem C3_extension_merge (cnt : Nat) (i1 i2 rest : List Nat)
    (pdata : List PlayerData) (sdata : List TheShipData)
    (hp : many_player_data i1 cnt = some (i2, pdata))
    (hs : many_the_ship_data i2 cnt = some (rest, sdata)) :
    player (cnt :: i1) = some (rest,
      { players := cnt,
        player_data := if sdata.isEmpty then pdata
                       else zipShip pdata sdata }) ∧
    ∀ i (hi : i < (if sdata.isEmpty then pdata
                   else zipShip pdata sdata).length),
      (if sdata.isEmpty then pdata
       else zipShip pdata sdata)[i].ship_data.isSome = true ↔
        i < sdata.length := by
  constructor
  · unfold player
    have hle : le_u8 (cnt :: i1) = some (i1, cnt) := rfl
    simp only [hle, pbind_some, hp, hs]
  · intro i hi
    cases sdata with
    | nil =>
      simp only [List.isEmpty_nil, if_pos] at hi ⊢
      have hmem : pdata[i] ∈ pdata := List.getElem_mem hi
      rw [many_player_data_none cnt i1 i2 pdata hp _ hmem]
      simp
    | cons s ss =>
      simp only [List.isEmpty_cons, Bool.false_eq_true, if_false] at hi ⊢
      exact zipShip_get pdata (s :: ss)
        (many_player_data_none cnt i1 i2 pdata hp) i hi

/-- The tail of the C3 counterexample buffer: two complete 10-byte player
entries followed by a single 8-byte Ship extension pair (deaths 5, money 6). -/
def c3Tail : List Nat :=
  [0, 0, 0, 0, 0, 0, 0, 0, 0, 0,
   1, 0, 0, 0, 0, 0, 0, 0, 0, 0,
   5, 0, 0, 0, 6, 0, 0, 0]

/-- The C3 counterexample buffer: declared count 2, n = 2 entries, m = 1
extension pair. -/
def c3Vector : List Nat := 2 :: c3Tail

/-- C3 counterexample: the extension pass decodes exactly one pair (m = 1)
against two primary entries (n = 2), yet decoding succeeds and the **first**
entry receives `ship_data = Some` — contradicting the claim that a length
mismatch leaves every entry's extension `None`. -/
theorem C3_counterexample :
    many_the_ship_data [5, 0, 0, 0, 6, 0, 0, 0] 2 = some ([], [⟨5, 6⟩]) ∧
    (parse_player c3Vector).map (fun r =>
      r.player_data.map (fun p => p.ship_data)) =
      some [some ⟨5, 6⟩, none] :=
  ⟨rfl, rfl⟩

/-- The primary entries decoded from `c3Tail`. -/
def c3Pdata : List PlayerData :=
  [⟨0, [], 0, 0, none⟩, ⟨1, [], 0, 0, none⟩]

/-- Witness for C3 at the concrete mismatched buffer: entry 0 is extended
because 0 < m = 1. -/
theorem C3_witness :
    (if ([⟨5, 6⟩] : List TheShipData).isEmpty then c3Pdata
     else zipShip c3Pdata [⟨5, 6⟩])[0].ship_data.isSome = true ↔
      0 < ([⟨5, 6⟩] : List TheShipData).length :=
  (C3_extension_merge 2 c3Tail [5, 0, 0, 0, 6, 0, 0, 0] [] c3Pdata [⟨5, 6⟩]
    rfl rfl).2 0 (by decide)

end A2S

namespace A2S

/-- A complete wire-format player entry: index byte, zero-free name bytes,
the 0x00 terminator, then four score bytes and four duration bytes. -/
def IsPlayerChunk (ch : List Nat) : Prop :=
  ∃ idx nm s0 s1 s2 s3 d0 d1 d2 d3,
    ch = idx :: (nm ++ 0 :: [s0, s1, s2, s3, d0, d1, d2, d3]) ∧ 0 ∉ nm

theorem c_string_terminated (nm : List Nat) (rest : List Nat) (h : 0 ∉ nm) :
    c_string (nm ++ 0 :: rest) = some (rest, nm) := by
  induction nm with
  | nil => simp [c_string]
  | cons b t ih =>
    have hb : b ≠ 0 := fun hb0 => h (by simp [hb0])
    have ht : 0 ∉ t := fun hmem => h (List.mem_cons_of_mem _ hmem)
    simp only [List.cons_append, c_string, if_neg hb]
    simp only [List.append_eq, ih ht]

/-- Parsing a complete entry consumes exactly its bytes. -/
theorem player_data_chunk {ch : List Nat} (h : IsPlayerChunk ch)
    (rest : List Nat) :
    ∃ e, player_data (ch ++ rest) = some (rest, e) ∧ e.ship_data = none := by
  obtain ⟨idx, nm, s0, s1, s2, s3, d0, d1, d2, d3, rfl, hnm⟩ := h
  refine ⟨⟨idx, nm, toI32 s0 s1 s2 s3,
           d0 + 256 * d1 + 65536 * d2 + 16777216 * d3, none⟩, ?_, rfl⟩
  unfold player_data
  rw [show le_u8 ((idx :: (nm ++ 0 :: [s0, s1, s2, s3, d0, d1, d2, d3]))
        ++ rest) = some ((nm ++ 0 :: [s0, s1, s2, s3, d0, d1, d2, d3])
        ++ rest, idx) from rfl, pbind_some]
  rw [List.append_assoc, List.cons_append]
  rw [c_string_terminated nm _ hnm, pbind_some]
  simp only [List.cons_append, List.nil_append]
  rw [show le_i32 (s0 :: s1 :: s2 :: s3 :: d0 :: d1 :: d2 :: d3 :: rest) =
        some (d0 :: d1 :: d2 :: d3 :: rest, toI32 s0 s1 s2 s3) from rfl,
      pbind_some]
  rw [show le_f32 (d0 :: d1 :: d2 :: d3 :: rest) = some (rest,
        d0 + 256 * d1 + 65536 * d2 + 16777216 * d3) from rfl, pbind_some]

/-- A sequence of at most `cnt` complete chunks is parsed greedily in full by
the bounded primary pass, leaving no remainder. -/
theorem many_player_chunks :
    ∀ (chunks : List (List Nat)) (cnt : Nat),
      chunks.length ≤ cnt →
      (∀ ch ∈ chunks, IsPlayerChunk ch) →
      ∃ entries,
        many_m_n cnt player_data chunks.flatten = some ([], entries) ∧
        entries.length = chunks.length := by
  intro chunks
  induction chunks with
  | nil =>
    intro cnt _ _
    cases cnt with
    | zero => exact ⟨[], rfl, rfl⟩
    | succ n => exact ⟨[], rfl, rfl⟩
  | cons ch chunks ih =>
    intro cnt hlen hv
    cases cnt with
    | zero => simp at hlen
    | succ n =>
      obtain ⟨e, he, _⟩ := player_data_chunk (hv ch (by simp)) chunks.flatten
      obtain ⟨entries, hm, hlen2⟩ := ih n (by simpa using hlen)
        (fun c hc => hv c (List.mem_cons_of_mem _ hc))
      refine ⟨e :: entries, ?_, by simp [hlen2]⟩
      simp only [many_m_n, List.flatten_cons, he, hm]

/-- The Ship-extension pass on an exhausted buffer yields the empty list. -/
theorem many_ship_empty (cnt : Nat) :
    many_m_n cnt ship_data [] = some ([], []) := by
  cases cnt <;> rfl

/-- C9: a PLAYER buffer whose count byte declares more entries than the
complete entries that follow (and which ends right after the last complete
entry) decodes successfully: `players` echoes the declared byte and
`player_data` holds fewer entries than declared. -/
theorem C9_truncation_tolerance (cnt : Nat) (chunks : List (List Nat))
    (hlt : chunks.length < cnt)
    (hv : ∀ ch ∈ chunks, IsPlayerChunk ch) :
    ∃ r, parse_player (cnt :: chunks.flatten) = some r ∧
      r.players = cnt ∧ r.player_data.length = chunks.length ∧
      r.player_data.length < cnt := by
  obtain ⟨entries, hm, hlen⟩ :=
    many_player_chunks chunks cnt (le_of_lt hlt) hv
  have hplayer : player (cnt :: chunks.flatten) =
      some ([], { players := cnt, player_data := entries }) := by
    unfold player
    rw [show le_u8 (cnt :: chunks.flatten) = some (chunks.flatten, cnt)
          from rfl, pbind_some]
    unfold many_player_data
    rw [hm, pbind_some]
    unfold many_the_ship_data
    rw [many_ship_empty, pbind_some]
    simp
  refine ⟨{ players := cnt, player_data := entries }, ?_, rfl, hlen, ?_⟩
  · unfold parse_player p_player
    simp only [hplayer]
  · simpa [hlen] using hlt

/-- Witness for C9: declared count 2 with a single complete entry. -/
theorem C9_witness :
    ∃ r, parse_player
        (2 :: ([[7, 0, 1, 0, 0, 0, 2, 0, 0, 0]] :
          List (List Nat)).flatten) = some r ∧
      r.players = 2 ∧
      r.player_data.length =
        ([[7, 0, 1, 0, 0, 0, 2, 0, 0, 0]] : List (List Nat)).length ∧
      r.player_data.length < 2 :=
  C9_truncation_tolerance 2 [[7, 0, 1, 0, 0, 0, 2, 0, 0, 0]] (by decide)
    (by
      intro ch hch
      simp only [List.mem_singleton] at hch
      subst hch
      exact ⟨7, [], 1, 0, 0, 0, 2, 0, 0, 0, rfl, by simp⟩)

end A2S

-- # C8: completion policies of the INFO entry points

namespace A2S

/-- A 17-byte Source INFO buffer (app_id 240) whose record decode succeeds
leaving the single junk byte 7, followed by an analogous 15-byte GoldSource
buffer. -/
def c8sVector : List Nat :=
  [0, 0, 0, 0, 0, 0xF0, 0x00, 0, 0, 0, 0x64, 0x6C, 0, 0, 0, 0, 7]

/-- The GoldSource analogue of `c8sVector`: a complete record followed by
the junk byte 7. -/
def g8Vector : List Nat :=
  [0, 0, 0, 0, 0, 0, 0, 0, 0x64, 0x6C, 0, 0, 0, 0, 7]

/-- C8 counterexample: the underlying record decodes succeed with the
non-empty remainder [7], yet **every** exposed INFO entry point rejects the
buffer — no lenient completion mode exists anywhere in the API. -/
theorem C8_counterexample :
    (∃ r, source_info c8sVector = some ([7], r)) ∧
    parse_source_info c8sVector = none ∧
    parse_source_infoP c8sVector = none ∧
    (∃ g, goldsource_info g8Vector = some ([7], g)) ∧
    parse_goldsource_info g8Vector = none :=
  ⟨⟨_, rfl⟩, rfl, rfl, ⟨_, rfl⟩, rfl⟩

/-- C8 amended: every exposed INFO decoder hard-codes the strict completion
policy (`all_consuming`): it succeeds exactly when the record decode
consumes the whole input, so a non-empty remainder is always an error and
no lenient mode is offered. -/
theorem C8_strict_completion :
    ∀ input : List Nat,
      (∀ r, parse_source_info input = some r ↔
        source_info input = some ([], r)) ∧
      (∀ r, parse_source_infoP input = some r ↔
        source_infoP input = some ([], r)) ∧
      (∀ g, parse_goldsource_info input = some g ↔
        goldsource_info input = some ([], g)) := by
  intro input
  refine ⟨fun r => ?_, fun r => ?_, fun g => ?_⟩
  · unfold parse_source_info p_source_info
    cases hx : source_info input with
    | none => simp
    | some p =>
      obtain ⟨restx, v⟩ := p
      cases restx with
      | nil => simp
      | cons b t => simp
  · unfold parse_source_infoP p_source_infoP
    cases hx : source_infoP input with
    | none => simp
    | some p =>
      obtain ⟨restx, v⟩ := p
      cases restx with
      | nil => simp
      | cons b t => simp
  · unfold parse_goldsource_info p_goldsource_info
    cases hx : goldsource_info input with
    | none => simp
    | some p =>
      obtain ⟨restx, v⟩ := p
      cases restx with
      | nil => simp
      | cons b t => simp

end A2S

-- # C10: the two public Source INFO decoders

namespace A2S

/-- The exact correction between the two `Environment::from` tables: the
parser-util table additionally sends the raw bytes 0x4F and 0x6F to MacOS. -/
def fixEnv (e : Environment) : Environment :=
  if e = Environment.Other 0x4F then Environment.MacOS
  else if e = Environment.Other 0x6F then Environment.MacOS
  else e

theorem envFromUtil_fix (b : Nat) :
    environmentFromUtil b = fixEnv (environmentFromParse b) := by
  unfold environmentFromUtil environmentFromParse
  split_ifs <;> simp_all [fixEnv]

/-- Lift of `fixEnv` to whole records: only the environment field changes. -/
def fixRec (r : SourceResponseInfo) : SourceResponseInfo :=
  { r with environment := fixEnv r.environment }

/-- C10 amended: the two public Source INFO decoders succeed on exactly the
same inputs, with identical remainders and records up to `fixEnv` on the
environment field alone — they agree everywhere except on environment bytes
0x4F and 0x6F, which the top-level decoder reads as MacOS and the
parse-module decoder keeps as raw `Other` values. -/
theorem C10_environment_refinement (input : List Nat) :
    source_info input =
      Option.map (fun p => (p.1, fixRec p.2)) (source_infoP input) ∧
    parse_source_info input = Option.map fixRec (parse_source_infoP input) := by
  have hmain : ∀ inp : List Nat, source_info inp =
      Option.map (fun p => (p.1, fixRec p.2)) (source_infoP inp) := by
    intro inp
    unfold source_info source_infoP source_info_gen
    refine pbind_congr_map _ _ _ fixRec (fun j1 protocol => ?_)
    refine pbind_congr_map _ _ _ fixRec (fun j2 nmv => ?_)
    refine pbind_congr_map _ _ _ fixRec (fun j3 mpv => ?_)
    refine pbind_congr_map _ _ _ fixRec (fun j4 flv => ?_)
    refine pbind_congr_map _ _ _ fixRec (fun j5 gmv => ?_)
    refine pbind_congr_map _ _ _ fixRec (fun j6 app_id => ?_)
    refine pbind_congr_map _ _ _ fixRec (fun j7 players => ?_)
    refine pbind_congr_map _ _ _ fixRec (fun j8 maxp => ?_)
    refine pbind_congr_map _ _ _ fixRec (fun j9 bots => ?_)
    refine pbind_congr_map _ _ _ fixRec (fun j10 stype => ?_)
    unfold environment environmentP
    cases hle : le_u8 j10 with
    | none => simp [pbind]
    | some p =>
      obtain ⟨j11, envb⟩ := p
      simp only [pbind]
      rw [envFromUtil_fix envb]
      generalize environmentFromParse envb = e
      refine pbind_congr_map _ _ _ fixRec (fun j12 vis => ?_)
      refine pbind_congr_map _ _ _ fixRec (fun j13 vacv => ?_)
      refine pbind_congr_map _ _ _ fixRec (fun j14 ship => ?_)
      refine pbind_congr_map _ _ _ fixRec (fun j15 ver => ?_)
      refine pbind_congr_map _ _ _ fixRec (fun j16 edf => ?_)
      refine pbind_congr_map _ _ _ fixRec (fun j17 fields => ?_)
      simp [fixRec]
  refine ⟨hmain input, ?_⟩
  unfold parse_source_info p_source_info parse_source_infoP p_source_infoP
  rw [hmain input]
  cases hx : source_infoP input with
  | none => rfl
  | some p =>
    obtain ⟨restx, v⟩ := p
    cases restx with
    | nil => rfl
    | cons b t => rfl

/-- A 15-byte Source INFO buffer whose environment byte is 0x6F. -/
def c10Vector : List Nat :=
  [0, 0, 0, 0, 0, 0xF0, 0x00, 0, 0, 0, 0x64, 0x6F, 0, 0, 0]

/-- C10 counterexample: both decoders accept the buffer, but the returned
environment enumerations differ — MacOS versus the raw value 0x6F — so the
two decoders are not extensionally equal. -/
theorem C10_counterexample :
    (parse_source_info c10Vector).map (fun r => r.environment) =
      some Environment.MacOS ∧
    (parse_source_infoP c10Vector).map (fun r => r.environment) =
      some (Environment.Other 0x6F) :=
  ⟨rfl, rfl⟩

end A2S
